import Mathlib

/-!
Verification of the gtrans command-line translator's decision core.

The repository `haya14busa/gtrans` contains two versions of the same
program in one file.  The first version uses `cloud.google.com/go/translate`
(its detect operation returns a list of detection lists, consumed by a
double loop); the second uses `google.golang.org/api/translate/v2` (its
detect operation returns a single language code).  Both share the same
locale parser (`langCodeFromLocale`) and target resolver
(`detectTargetLang`), duplicated textually.

Go strings are modelled as `List Char`; the process environment as a
function from variable name to value, with the empty string standing for
an unset variable exactly as `os.Getenv` does.  Fallible operations
return `Except`.  The external translation client (an out-of-scope
collaborator) is a structure of oracle functions; `runTranslation`
additionally records the list of API calls it makes, in order, so that
"detection is never invoked" and "no network call is attempted" are
provable statements.
-/

/-- Go strings, modelled as lists of characters. -/
abbrev Str := List Char

/-- Process environment: `os.Getenv` semantics, an unset variable reads
as the empty string. -/
abbrev Env := String → Str

/-- Go's `strings.HasPrefix s p`: does `s` start with `p`? -/
def goHasPre : Str → Str → Bool
  | _, [] => true
  | [], _ :: _ => false
  | c :: s, p :: ps => c == p && goHasPre s ps

/-- Go's `strings.Index s "_"` for the single-character needle used by
the source: index of the first underscore, `none` for Go's `-1`. -/
def idxUnderscore : Str → Option Nat
  | [] => none
  | c :: s => if c == '_' then some 0 else (idxUnderscore s).map (· + 1)

/-- First version's `langCodeFromLocale` (gtrans.go lines 167–183):
Chinese special cases first, then the substring before the first
underscore, else empty. -/
def langCodeFromLocale (locale : Str) : Str :=
  if goHasPre locale "zh_CN".toList || goHasPre locale "zh_SG".toList then
    "zh-CN".toList
  else if goHasPre locale "zh_TW".toList || goHasPre locale "zh_HK".toList then
    "zh-TW".toList
  else
    match idxUnderscore locale with
    | none => []
    | some i => locale.take i

/-- Second version's `langCodeFromLocale` (gtrans.go lines 356–372),
textually identical to the first. -/
def langCodeFromLocaleV2 (locale : Str) : Str :=
  if goHasPre locale "zh_CN".toList || goHasPre locale "zh_SG".toList then
    "zh-CN".toList
  else if goHasPre locale "zh_TW".toList || goHasPre locale "zh_HK".toList then
    "zh-TW".toList
  else
    match idxUnderscore locale with
    | none => []
    | some i => locale.take i

/-- The error message of `detectTargetLang`'s failure (its
`ConfigurationMissing` case). -/
def cannotDetectMsg : String :=
  "cannot detect language. Please export $LANG or $GOOGLE_TRANSLATE_LANG (e.g. en, ja)"

/-- The loop `for _, env := range []string{"LANGUAGE", "LC_ALL", "LANG"}`:
first variable whose value the locale parser turns into a non-empty
code. -/
def firstLocaleCode (env : Env) : List String → Option Str
  | [] => none
  | n :: rest =>
    let code := langCodeFromLocale (env n)
    if code ≠ [] then some code else firstLocaleCode env rest

/-- First version's `detectTargetLang` (gtrans.go lines 153–164):
`GOOGLE_TRANSLATE_LANG` if non-empty, else the locale fallback list,
else the configuration-missing error. -/
def detectTargetLang (env : Env) : Except String Str :=
  if env "GOOGLE_TRANSLATE_LANG" ≠ [] then
    .ok (env "GOOGLE_TRANSLATE_LANG")
  else
    match firstLocaleCode env ["LANGUAGE", "LC_ALL", "LANG"] with
    | some code => .ok code
    | none => .error cannotDetectMsg

/-- Same loop for the second version, over its own locale parser. -/
def firstLocaleCodeV2 (env : Env) : List String → Option Str
  | [] => none
  | n :: rest =>
    let code := langCodeFromLocaleV2 (env n)
    if code ≠ [] then some code else firstLocaleCodeV2 env rest

/-- Second version's `detectTargetLang` (gtrans.go lines 342–352),
textually identical to the first. -/
def detectTargetLangV2 (env : Env) : Except String Str :=
  if env "GOOGLE_TRANSLATE_LANG" ≠ [] then
    .ok (env "GOOGLE_TRANSLATE_LANG")
  else
    match firstLocaleCodeV2 env ["LANGUAGE", "LC_ALL", "LANG"] with
    | some code => .ok code
    | none => .error cannotDetectMsg

/-- The target-resolution step of `Main` (gtrans.go lines 71–78): a
non-empty explicit `-to` value is used as-is, otherwise
`detectTargetLang` runs. -/
def resolveTargetLang (explicit : Str) (env : Env) : Except String Str :=
  if explicit ≠ [] then .ok explicit else detectTargetLang env

/-- One remote API call made by `runTranslation`, with its arguments. -/
inductive ApiCall where
  | detectCall (text : Str)
  | translateCall (text : Str) (target : Str)
deriving DecidableEq, Repr

/-- The external translation client of the second version (`Gtrans`):
`Detect` and `Translate` as oracle functions, per the external
collaborator contract. -/
structure Client where
  detect : Str → Except String Str
  translate : Str → Str → Except String Str

/-- Second version's `runTranslation` (gtrans.go lines 305–333), with
the client passed in for the external service and the list of API calls
it performs recorded alongside the result.  The API-key check comes
first; the detect call happens only under a non-empty
`GOOGLE_TRANSLATE_SECOND_LANG`; a detect error aborts; the target is
switched to the second language exactly when the detected code equals
it; then the (possibly switched) target is translated into. -/
def runTranslation (env : Env) (client : Client) (targetLang text : Str) :
    Except String Str × List ApiCall :=
  let apiKey := env "GOOGLE_TRANSLATE_API_KEY"
  if apiKey = [] then
    (.error "GOOGLE_TRANSLATE_API_KEY is not set", [])
  else
    let sec := env "GOOGLE_TRANSLATE_SECOND_LANG"
    if sec ≠ [] then
      match client.detect text with
      | .error e => (.error e, [.detectCall text])
      | .ok detected =>
        let target := if detected = targetLang then sec else targetLang
        match client.translate text target with
        | .error e => (.error e, [.detectCall text, .translateCall text target])
        | .ok t => (.ok t, [.detectCall text, .translateCall text target])
    else
      match client.translate text targetLang with
      | .error e => (.error e, [.translateCall text targetLang])
      | .ok t => (.ok t, [.translateCall text targetLang])

/-- First version's switch logic (gtrans.go lines 119–126): the double
loop over the detections list, where only the first detection of each
inner list is examined (the inner loop breaks after one step) and the
target variable is mutated in place. -/
def switchLoop (targetLang sec : Str) : List (List Str) → Str
  | [] => targetLang
  | detections :: rest =>
    let t :=
      match detections with
      | [] => targetLang
      | d :: _ => if d = targetLang then sec else targetLang
    switchLoop t sec rest

/-- Second version's switch logic (gtrans.go lines 322–324): switch to
the second language exactly when the detected code equals the current
target. -/
def switchTarget (targetLang sec detected : Str) : Str :=
  if detected = targetLang then sec else targetLang

/-- Concrete environment: explicit override `de` plus a Japanese `LANG`,
for exercising resolution precedence. -/
def envDeJa : Env := fun n =>
  if n = "GOOGLE_TRANSLATE_LANG" then "de".toList
  else if n = "LANG" then "ja_JP.UTF-8".toList
  else []

/-- Concrete environment: only `LANG=en_US.UTF-8`. -/
def envEnUS : Env := fun n =>
  if n = "LANG" then "en_US.UTF-8".toList else []

/-- Concrete environment with every variable unset. -/
def envEmpty : Env := fun _ => []

/-- Concrete environment: an API key and a second language `ja`. -/
def envKeySec : Env := fun n =>
  if n = "GOOGLE_TRANSLATE_API_KEY" then "key".toList
  else if n = "GOOGLE_TRANSLATE_SECOND_LANG" then "ja".toList
  else []

/-- Concrete environment: only the API key is set. -/
def envKeyOnly : Env := fun n =>
  if n = "GOOGLE_TRANSLATE_API_KEY" then "key".toList else []

/-- Concrete client whose detection always answers `en`. -/
def clientDetectEn : Client :=
  { detect := fun _ => .ok "en".toList, translate := fun _ _ => .ok "T".toList }

/-- Concrete client whose detection always answers `fr`. -/
def clientDetectFr : Client :=
  { detect := fun _ => .ok "fr".toList, translate := fun _ _ => .ok "T".toList }

/-- Concrete client whose detection always fails. -/
def clientFail : Client :=
  { detect := fun _ => .error "detect failed", translate := fun _ _ => .ok "T".toList }

example : langCodeFromLocale "en_US.UTF-8".toList = "en".toList := by decide
example : langCodeFromLocale "zh_CN.UTF-8".toList = "zh-CN".toList := by decide
example : langCodeFromLocale "zh_HK".toList = "zh-TW".toList := by decide
example : langCodeFromLocale "C".toList = [] := by decide
example : langCodeFromLocale [] = [] := by decide

/-- Unfolding fact: the characters of the source constant `"zh_CN"`. -/
lemma zhCNList : "zh_CN".toList = ['z', 'h', '_', 'C', 'N'] := rfl

/-- Unfolding fact: the characters of the source constant `"zh_SG"`. -/
lemma zhSGList : "zh_SG".toList = ['z', 'h', '_', 'S', 'G'] := rfl

/-- Unfolding fact: the characters of the source constant `"zh_TW"`. -/
lemma zhTWList : "zh_TW".toList = ['z', 'h', '_', 'T', 'W'] := rfl

/-- Unfolding fact: the characters of the source constant `"zh_HK"`. -/
lemma zhHKList : "zh_HK".toList = ['z', 'h', '_', 'H', 'K'] := rfl

/-- Determining the first underscore fails exactly on underscore-free
strings. -/
lemma idxUnderscore_eq_none (s : Str) : idxUnderscore s = none ↔ '_' ∉ s := by
  induction s with
  | nil => simp [idxUnderscore]
  | cons c t ih =>
    by_cases hc : c = '_'
    · subst hc; simp [idxUnderscore]
    · have hb : (c == '_') = false := by simp [hc]
      simp [idxUnderscore, hb, Option.map_eq_none', ih, Ne.symm hc]

/-- When the first underscore sits at index `i`, the prefix of length
`i` is the maximal underscore-free prefix: it equals `takeWhile`, the
string splits as that prefix, the underscore, and the rest, and the
prefix itself holds no underscore. -/
lemma idxUnderscore_some (s : Str) (i : Nat) (h : idxUnderscore s = some i) :
    s.take i = s.takeWhile (fun c => c != '_') ∧
    s = s.take i ++ '_' :: s.drop (i + 1) ∧
    '_' ∉ s.take i := by
  induction s generalizing i with
  | nil => simp [idxUnderscore] at h
  | cons c t ih =>
    by_cases hc : c = '_'
    · subst hc
      simp only [idxUnderscore, beq_self_eq_true, if_pos, Option.some.injEq] at h
      subst h
      simp [List.takeWhile]
    · have hb : (c == '_') = false := by simp [hc]
      simp only [idxUnderscore, hb, Bool.false_eq_true, if_false,
        Option.map_eq_some'] at h
      obtain ⟨j, hj, hij⟩ := h
      subst hij
      obtain ⟨h1, h2, h3⟩ := ih j hj
      refine ⟨?_, ?_, ?_⟩
      · simp [List.takeWhile, bne, hb, h1]
      · simp only [List.take_succ_cons, List.drop_succ_cons, List.cons_append]
        exact congrArg (c :: ·) h2
      · simp only [List.take_succ_cons, List.mem_cons, not_or]
        exact ⟨Ne.symm hc, h3⟩

/-- C3: every locale string starting with `zh_CN` or `zh_SG` parses to
the fixed code `zh-CN`, and every locale string starting with `zh_TW` or
`zh_HK` parses to the fixed code `zh-TW`; the special cases win over the
first-underscore rule. -/
theorem claim_C3 (rest : Str) :
    langCodeFromLocale ("zh_CN".toList ++ rest) = "zh-CN".toList ∧
    langCodeFromLocale ("zh_SG".toList ++ rest) = "zh-CN".toList ∧
    langCodeFromLocale ("zh_TW".toList ++ rest) = "zh-TW".toList ∧
    langCodeFromLocale ("zh_HK".toList ++ rest) = "zh-TW".toList := by
  refine ⟨?_, ?_, ?_, ?_⟩ <;>
    simp [langCodeFromLocale, goHasPre, zhCNList, zhSGList, zhTWList, zhHKList,
      show ('S' == 'C') = false from rfl, show ('T' == 'C') = false from rfl,
      show ('T' == 'S') = false from rfl, show ('H' == 'C') = false from rfl,
      show ('H' == 'S') = false from rfl, show ('H' == 'T') = false from rfl]

/-- C4: on locale strings that do not start with any Chinese special
prefix, the parser returns the maximal prefix before the first
underscore when an underscore exists, and the empty string otherwise
(the empty string being a valid, non-error result). -/
theorem claim_C4 (s : Str)
    (h1 : goHasPre s "zh_CN".toList = false)
    (h2 : goHasPre s "zh_SG".toList = false)
    (h3 : goHasPre s "zh_TW".toList = false)
    (h4 : goHasPre s "zh_HK".toList = false) :
    ('_' ∈ s → langCodeFromLocale s = s.takeWhile (fun c => c != '_')) ∧
    ('_' ∉ s → langCodeFromLocale s = []) := by
  have hcn : ¬((goHasPre s "zh_CN".toList || goHasPre s "zh_SG".toList) = true) := by
    rw [h1, h2]; decide
  have htw : ¬((goHasPre s "zh_TW".toList || goHasPre s "zh_HK".toList) = true) := by
    rw [h3, h4]; decide
  constructor
  · intro hmem
    cases hidx : idxUnderscore s with
    | none => exact absurd hmem ((idxUnderscore_eq_none s).mp hidx)
    | some i =>
      have heq := (idxUnderscore_some s i hidx).1
      unfold langCodeFromLocale
      rw [if_neg hcn, if_neg htw, hidx]
      exact heq
  · intro hmem
    unfold langCodeFromLocale
    rw [if_neg hcn, if_neg htw, (idxUnderscore_eq_none s).mpr hmem]

/-- C4 witness: `en_US.UTF-8` parses to `en` and underscore-free `fr`
parses to the empty string. -/
theorem claim_C4_witness :
    langCodeFromLocale "en_US.UTF-8".toList = "en".toList ∧
    langCodeFromLocale "fr".toList = [] := by
  constructor
  · have h := (claim_C4 "en_US.UTF-8".toList (by decide) (by decide) (by decide)
      (by decide)).1 (by decide)
    exact h.trans (by decide)
  · exact (claim_C4 "fr".toList (by decide) (by decide) (by decide)
      (by decide)).2 (by decide)

/-- C10: the locale parser's output never holds an underscore, and it is
always the empty string, one of the two fixed Chinese codes, or the
prefix of the input ending exactly at the input's first underscore. -/
theorem claim_C10 (s : Str) :
    '_' ∉ langCodeFromLocale s ∧
    (langCodeFromLocale s = [] ∨ langCodeFromLocale s = "zh-CN".toList ∨
     langCodeFromLocale s = "zh-TW".toList ∨
     ∃ t, s = langCodeFromLocale s ++ '_' :: t) := by
  by_cases h1 : (goHasPre s "zh_CN".toList || goHasPre s "zh_SG".toList) = true
  · have hr : langCodeFromLocale s = "zh-CN".toList := by
      unfold langCodeFromLocale
      rw [if_pos h1]
    rw [hr]
    exact ⟨by decide, Or.inr (Or.inl rfl)⟩
  · by_cases h2 : (goHasPre s "zh_TW".toList || goHasPre s "zh_HK".toList) = true
    · have hr : langCodeFromLocale s = "zh-TW".toList := by
        unfold langCodeFromLocale
        rw [if_neg h1, if_pos h2]
      rw [hr]
      exact ⟨by decide, Or.inr (Or.inr (Or.inl rfl))⟩
    · cases hidx : idxUnderscore s with
      | none =>
        have hr : langCodeFromLocale s = [] := by
          unfold langCodeFromLocale
          rw [if_neg h1, if_neg h2, hidx]
        rw [hr]
        exact ⟨by decide, Or.inl rfl⟩
      | some i =>
        obtain ⟨-, hsplit, hmem⟩ := idxUnderscore_some s i hidx
        have hr : langCodeFromLocale s = s.take i := by
          unfold langCodeFromLocale
          rw [if_neg h1, if_neg h2, hidx]
        rw [hr]
        exact ⟨hmem, Or.inr (Or.inr (Or.inr ⟨s.drop (i + 1), hsplit⟩))⟩

/-- C1: target resolution follows strict precedence — a non-empty
explicit target wins outright; otherwise a non-empty
`GOOGLE_TRANSLATE_LANG` is returned; otherwise `LANGUAGE`, `LC_ALL`,
`LANG` are consulted in that order through the locale parser and the
first non-empty parsed code is returned. -/
theorem claim_C1 (explicit : Str) (env : Env) :
    (explicit ≠ [] → resolveTargetLang explicit env = .ok explicit) ∧
    (explicit = [] → env "GOOGLE_TRANSLATE_LANG" ≠ [] →
      resolveTargetLang explicit env = .ok (env "GOOGLE_TRANSLATE_LANG")) ∧
    (explicit = [] → env "GOOGLE_TRANSLATE_LANG" = [] →
      langCodeFromLocale (env "LANGUAGE") ≠ [] →
      resolveTargetLang explicit env = .ok (langCodeFromLocale (env "LANGUAGE"))) ∧
    (explicit = [] → env "GOOGLE_TRANSLATE_LANG" = [] →
      langCodeFromLocale (env "LANGUAGE") = [] →
      langCodeFromLocale (env "LC_ALL") ≠ [] →
      resolveTargetLang explicit env = .ok (langCodeFromLocale (env "LC_ALL"))) ∧
    (explicit = [] → env "GOOGLE_TRANSLATE_LANG" = [] →
      langCodeFromLocale (env "LANGUAGE") = [] →
      langCodeFromLocale (env "LC_ALL") = [] →
      langCodeFromLocale (env "LANG") ≠ [] →
      resolveTargetLang explicit env = .ok (langCodeFromLocale (env "LANG"))) := by
  refine ⟨?_, ?_, ?_, ?_, ?_⟩
  · intro h
    simp [resolveTargetLang, h]
  · intro h hG
    simp [resolveTargetLang, detectTargetLang, h, hG]
  · intro h hG hLg
    simp [resolveTargetLang, detectTargetLang, firstLocaleCode, h, hG, hLg]
  · intro h hG hLg hLc
    simp [resolveTargetLang, detectTargetLang, firstLocaleCode, h, hG, hLg, hLc]
  · intro h hG hLg hLc hLa
    simp [resolveTargetLang, detectTargetLang, firstLocaleCode, h, hG, hLg, hLc, hLa]

/-- C1 witness: explicit `ja` beats `GOOGLE_TRANSLATE_LANG=de`; with no
explicit target `de` wins regardless of `LANG=ja_JP.UTF-8`; with neither,
`LANG=en_US.UTF-8` resolves to `en`. -/
theorem claim_C1_witness :
    resolveTargetLang "ja".toList envDeJa = .ok "ja".toList ∧
    resolveTargetLang [] envDeJa = .ok "de".toList ∧
    resolveTargetLang [] envEnUS = .ok "en".toList := by
  refine ⟨?_, ?_, ?_⟩
  · exact (claim_C1 "ja".toList envDeJa).1 (by decide)
  · exact ((claim_C1 [] envDeJa).2.1 rfl (by decide)).trans (by rfl)
  · exact ((claim_C1 [] envEnUS).2.2.2.2 rfl (by decide) (by decide) (by decide)
      (by decide)).trans (by rfl)

/-- C5: with an empty explicit target, an empty or unset
`GOOGLE_TRANSLATE_LANG`, and no locale variable parsing to a non-empty
code, resolution fails with the configuration-missing error and no
language code is produced. -/
theorem claim_C5 (explicit : Str) (env : Env)
    (h0 : explicit = [])
    (h1 : env "GOOGLE_TRANSLATE_LANG" = [])
    (h2 : langCodeFromLocale (env "LANGUAGE") = [])
    (h3 : langCodeFromLocale (env "LC_ALL") = [])
    (h4 : langCodeFromLocale (env "LANG") = []) :
    resolveTargetLang explicit env = .error cannotDetectMsg := by
  simp [resolveTargetLang, detectTargetLang, firstLocaleCode, h0, h1, h2, h3, h4]

/-- C5 witness: with a fully empty environment and no explicit target,
resolution fails with the configuration-missing error. -/
theorem claim_C5_witness :
    resolveTargetLang [] envEmpty = .error cannotDetectMsg :=
  claim_C5 [] envEmpty rfl rfl rfl rfl rfl

/-- C8: target resolution is deterministic — two environments agreeing
on `GOOGLE_TRANSLATE_LANG`, `LANGUAGE`, `LC_ALL` and `LANG` give the
same resolved code or the same failure for the same explicit target. -/
theorem claim_C8 (explicit : Str) (env1 env2 : Env)
    (hG : env1 "GOOGLE_TRANSLATE_LANG" = env2 "GOOGLE_TRANSLATE_LANG")
    (hLg : env1 "LANGUAGE" = env2 "LANGUAGE")
    (hLc : env1 "LC_ALL" = env2 "LC_ALL")
    (hLa : env1 "LANG" = env2 "LANG") :
    resolveTargetLang explicit env1 = resolveTargetLang explicit env2 := by
  simp only [resolveTargetLang, detectTargetLang, firstLocaleCode, hG, hLg, hLc, hLa]

/-- C8 witness: an all-empty environment and one that sets only the API
key resolve identically for explicit target `ja`. -/
theorem claim_C8_witness :
    resolveTargetLang "ja".toList envEmpty = resolveTargetLang "ja".toList envKeyOnly :=
  claim_C8 "ja".toList envEmpty envKeyOnly (by decide) (by decide) (by decide) (by decide)

/-- C2: with a non-empty second language the source is detected and the
translation targets the second language exactly when the detected code
equals the resolved target; with no second language configured the
detect operation never runs and the target is unchanged, whatever the
client's detection would have answered. -/
theorem claim_C2 (env : Env) (client : Client) (targetLang text : Str)
    (hkey : env "GOOGLE_TRANSLATE_API_KEY" ≠ []) :
    (∀ d, env "GOOGLE_TRANSLATE_SECOND_LANG" ≠ [] →
      client.detect text = .ok d →
      (runTranslation env client targetLang text).2 =
        [ApiCall.detectCall text,
         ApiCall.translateCall text
           (if d = targetLang then env "GOOGLE_TRANSLATE_SECOND_LANG" else targetLang)]) ∧
    (env "GOOGLE_TRANSLATE_SECOND_LANG" = [] →
      (runTranslation env client targetLang text).2 =
        [ApiCall.translateCall text targetLang]) := by
  constructor
  · intro d hsec hdet
    simp [runTranslation, hkey, hsec, hdet]
    split <;> rfl
  · intro hsec
    simp [runTranslation, hkey, hsec]
    split <;> rfl

/-- C2 witness: with target `en` and second language `ja`, detection
answering `en` makes the final target `ja`, while detection answering
`fr` leaves it `en`. -/
theorem claim_C2_witness :
    (runTranslation envKeySec clientDetectEn "en".toList "hi".toList).2 =
      [ApiCall.detectCall "hi".toList, ApiCall.translateCall "hi".toList "ja".toList] ∧
    (runTranslation envKeySec clientDetectFr "en".toList "hi".toList).2 =
      [ApiCall.detectCall "hi".toList, ApiCall.translateCall "hi".toList "en".toList] := by
  constructor
  · exact ((claim_C2 envKeySec clientDetectEn "en".toList "hi".toList (by decide)).1
      "en".toList (by decide) rfl).trans (by rfl)
  · exact ((claim_C2 envKeySec clientDetectFr "en".toList "hi".toList (by decide)).1
      "fr".toList (by decide) rfl).trans (by rfl)

/-- C6: with the switch policy active, a failing detect operation makes
the whole run fail with that same error, and the translate operation is
never invoked. -/
theorem claim_C6 (env : Env) (client : Client) (targetLang text : Str) (e : String)
    (hkey : env "GOOGLE_TRANSLATE_API_KEY" ≠ [])
    (hsec : env "GOOGLE_TRANSLATE_SECOND_LANG" ≠ [])
    (hdet : client.detect text = .error e) :
    runTranslation env client targetLang text = (.error e, [ApiCall.detectCall text]) := by
  simp [runTranslation, hkey, hsec, hdet]

/-- C6 witness: a client whose detection fails aborts the run with its
error after the lone detect call. -/
theorem claim_C6_witness :
    runTranslation envKeySec clientFail "en".toList "hi".toList =
      (.error "detect failed", [ApiCall.detectCall "hi".toList]) :=
  claim_C6 envKeySec clientFail "en".toList "hi".toList "detect failed"
    (by decide) (by decide) rfl

/-- C7: with `GOOGLE_TRANSLATE_API_KEY` unset or empty, the translation
path fails with an error naming the missing key and performs no API
call at all. -/
theorem claim_C7 (env : Env) (client : Client) (targetLang text : Str)
    (hkey : env "GOOGLE_TRANSLATE_API_KEY" = []) :
    runTranslation env client targetLang text =
      (.error "GOOGLE_TRANSLATE_API_KEY is not set", []) := by
  simp [runTranslation, hkey]

/-- C7 witness: the empty environment makes the run fail with the
missing-key message and an empty call trace. -/
theorem claim_C7_witness :
    runTranslation envEmpty clientDetectEn "en".toList "hi".toList =
      (.error "GOOGLE_TRANSLATE_API_KEY is not set", []) :=
  claim_C7 envEmpty clientDetectEn "en".toList "hi".toList rfl

/-- C9: the two embedded program versions agree on the whole decision
core — identical locale parsing, identical target resolution, and the
first version's detections-list loop fed one detection agrees with the
second version's single-code switch. -/
theorem claim_C9 :
    (∀ locale, langCodeFromLocale locale = langCodeFromLocaleV2 locale) ∧
    (∀ env, detectTargetLang env = detectTargetLangV2 env) ∧
    (∀ targetLang sec d, switchLoop targetLang sec [[d]] = switchTarget targetLang sec d) :=
  ⟨fun _ => rfl, fun _ => rfl, fun _ _ _ => rfl⟩
